import Mathlib

/-!
Verification of the circuit-breaking call gate of `go-autumn-web`
(package `resiliency`).

The repository's own code (`resiliency/circuitbreaker.go` as cited by the
claims, and its test file) wraps the `sony/gobreaker/v2` circuit breaker:
it supplies default options, substitutes defaults for nil arguments, and
forwards each HTTP request through `gobreaker.CircuitBreaker.Execute`.
The gobreaker state machine itself is an external dependency whose source
is not part of the repository; where a claim depends on it, the gate's
state machine is modelled from the specification's state-machine section
(each such definition carries a `Modelled from the spec:` doc comment).

Conventions of the embedding:
* Go `uint32` counters and `time.Duration` / timestamps become `Nat`
  (durations and instants are in nanoseconds, `time.Second = 10^9`);
* nil-able Go values (`http.RoundTripper`, options pointers, func fields)
  become `Option`;
* a Go `(T, error)` pair becomes `Except ε α`; the gate's short-circuit
  error is kept apart from the operation's own error by a `Sum`, mirroring
  the fact that `gobreaker` returns its own distinguished error value;
* stateful code is explicit state passing: an outbound round tripper is a
  function `ρ → Request → Except ε Response × ρ` on its own state `ρ`, and
  the gate's mutable fields form the record `CBState` threaded through
  `execute`.
-/

/-- Outcome counters of the gate, after `gobreaker.Counts`
(fields `Requests`, `TotalSuccesses`, `TotalFailures`,
`ConsecutiveSuccesses`, `ConsecutiveFailures`, all `uint32`). -/
structure Counts where
  requests : Nat
  totalSuccesses : Nat
  totalFailures : Nat
  consecutiveSuccesses : Nat
  consecutiveFailures : Nat
deriving DecidableEq, Repr

/-- The all-zero counts record. -/
def Counts.zero : Counts :=
  ⟨0, 0, 0, 0, 0⟩

/-- Result of the IEEE-754 comparison
`float64(f) / float64(r) >= 0.6` for `uint32` operands `f` and `r`, as in
the default trip policy of `DefaultCircuitBreakerTransportOptions`.
Justification that this `Nat`-level definition is the exact value of the
Go expression:
* `uint32 → float64` conversion is exact;
* `r = 0, f = 0`: the division yields NaN and every comparison with NaN
  is false;
* `r = 0, f > 0`: the division yields `+Inf`, which is `>= 0.6`;
* `r > 0`: the literal `0.6` rounds to the double `d = 3/5 - δ` with
  `δ < 2^-54`, and rounding of `f/r` to the nearest double moves it by
  less than `2^-53` of its value; a fraction with denominator `r < 2^32`
  is either `≥ 3/5 > d` or `≤ 3/5 - 1/(5r) < 3/5 - 2^-35`, far below any
  value that could round to `d` or above.  Hence the float comparison
  agrees exactly with the rational comparison `f/r ≥ 3/5`, i.e. with
  `5*f ≥ 3*r`. -/
def float64DivGE06 (f r : Nat) : Bool :=
  if r = 0 then
    if f = 0 then false else true
  else
    decide (3 * r ≤ 5 * f)

/-- Trip policy installed by `DefaultCircuitBreakerTransportOptions`
(source: `failureRatio := float64(counts.TotalFailures) / float64(counts.Requests);
return counts.Requests >= 5 && failureRatio >= 0.6`). -/
def defaultReadyToTrip (c : Counts) : Bool :=
  decide (5 ≤ c.requests) && float64DivGE06 c.totalFailures c.requests

/-- One second, as a Go `time.Duration` in nanoseconds. -/
def timeSecond : Nat := 1000000000

/-- The subset of `gobreaker.Settings` that the repository sets and the
claims mention: `Name`, `MaxRequests`, `Interval`, `Timeout`,
`ReadyToTrip` (a nil-able func field, hence `Option`). -/
structure Settings where
  name : String
  maxRequests : Nat
  interval : Nat
  timeout : Nat
  readyToTrip : Option (Counts → Bool)

/-- Options wrapper of the repository: a struct embedding
`gobreaker.Settings`. -/
structure CircuitBreakerTransportOptions where
  settings : Settings

/-- An outbound round tripper reference, distinguishing the process-wide
`http.DefaultTransport` from any custom transport (identity modelled by a
tag). -/
inductive RoundTripperRef where
  | defaultTransport
  | custom (id : Nat)
deriving DecidableEq, Repr

/-- Construction-time content of a `CircuitBreakerTransport`: the base
round tripper chosen by the constructor and the settings the embedded
`gobreaker.CircuitBreaker` is created from. -/
structure CircuitBreakerTransportCfg where
  base : RoundTripperRef
  cbSettings : Settings

/-- `DefaultCircuitBreakerTransportOptions` from the source: name
"default", `MaxRequests: 5`, `Interval: 60 * time.Second`,
`Timeout: 60 * time.Second`, and the failure-ratio trip policy. -/
def DefaultCircuitBreakerTransportOptions : CircuitBreakerTransportOptions :=
  { settings :=
    { name := "default"
      maxRequests := 5
      interval := 60 * timeSecond
      timeout := 60 * timeSecond
      readyToTrip := some defaultReadyToTrip } }

/-- `NewCircuitBreakerTransport` from the source: a nil round tripper is
replaced by `http.DefaultTransport`, nil options by
`DefaultCircuitBreakerTransportOptions`, and the circuit breaker is
created from the resulting settings. -/
def NewCircuitBreakerTransport (rt : Option RoundTripperRef)
    (opts : Option CircuitBreakerTransportOptions) : CircuitBreakerTransportCfg :=
  let rt := rt.getD .defaultTransport
  let opts := opts.getD DefaultCircuitBreakerTransportOptions
  { base := rt, cbSettings := opts.settings }

/-- Modelled from the spec: the three health states of the gate
(`CLOSED`, `OPEN`, `HALF_OPEN`); the gobreaker state machine is not part
of the repository's source. -/
inductive CBStateKind where
  | closed
  | open
  | halfOpen
deriving DecidableEq, Repr

/-- Modelled from the spec: the engine configuration, immutable after
construction — `{name, maxHalfOpenRequests, closedCountingInterval,
openTimeout, tripPolicy}`.  Field names follow `gobreaker.Settings` as
the spec's §6 does (`maxRequests`, `interval`, `timeout`). -/
structure Config where
  name : String
  maxRequests : Nat
  interval : Nat
  timeout : Nat
  readyToTrip : Counts → Bool

/-- Modelled from the spec: the gate's mutable fields — `state`,
`generation`, `counts`, and `expiry` (`none` = unset/infinite). -/
structure CBState where
  state : CBStateKind
  generation : Nat
  counts : Counts
  expiry : Option Nat
deriving DecidableEq, Repr

/-- Counts update on admission of a request. -/
def Counts.onRequest (c : Counts) : Counts :=
  { c with requests := c.requests + 1 }

/-- Counts update on a success outcome: increments `successes` and
`consecutiveSuccesses`, resets `consecutiveFailures` to 0. -/
def Counts.onSuccess (c : Counts) : Counts :=
  { c with
    totalSuccesses := c.totalSuccesses + 1
    consecutiveSuccesses := c.consecutiveSuccesses + 1
    consecutiveFailures := 0 }

/-- Counts update on a failure outcome: increments `failures` and
`consecutiveFailures`, resets `consecutiveSuccesses` to 0. -/
def Counts.onFailure (c : Counts) : Counts :=
  { c with
    totalFailures := c.totalFailures + 1
    consecutiveFailures := c.consecutiveFailures + 1
    consecutiveSuccesses := 0 }

/-- Modelled from the spec: starting a new generation in state `kind` at
time `now` — counts reset to zero, generation incremented, expiry set to
`now + closedCountingInterval` when entering CLOSED with an interval
configured (unset when the interval is zero), to `now + openTimeout` when
entering OPEN, and unset in HALF_OPEN (timeout logic does not apply
there). -/
def newGeneration (cfg : Config) (kind : CBStateKind) (gen now : Nat) : CBState :=
  { state := kind
    generation := gen + 1
    counts := Counts.zero
    expiry :=
      match kind with
      | .closed => if cfg.interval = 0 then none else some (now + cfg.interval)
      | .open => some (now + cfg.timeout)
      | .halfOpen => none }

/-- Modelled from the spec: a state transition — entering any new state
resets `counts` to zero and advances `generation`; transitioning to the
state the gate is already in is a no-op. -/
def setState (cfg : Config) (s : CBState) (k : CBStateKind) (now : Nat) : CBState :=
  if s.state = k then s else newGeneration cfg k s.generation now

/-- Modelled from the spec: the lazy time-driven transitions evaluated at
each `Execute` attempt — in CLOSED, when a counting interval is
configured and `now ≥ expiry`, counts and expiry reset in a new
generation (rolling window); in OPEN, when `now ≥ expiry`, the gate
transitions to HALF_OPEN; no background timer exists. -/
def currentState (cfg : Config) (s : CBState) (now : Nat) : CBState :=
  match s.state with
  | .closed =>
    match s.expiry with
    | some e => if e ≤ now then newGeneration cfg .closed s.generation now else s
    | none => s
  | .open =>
    match s.expiry with
    | some e => if e ≤ now then setState cfg s .halfOpen now else s
    | none => s
  | .halfOpen => s

/-- Modelled from the spec: the synthetic `GateOpenError` returned when a
call is short-circuited; it carries the gate name and the gate's current
state. -/
structure GateOpenError where
  gateName : String
  state : CBStateKind
deriving DecidableEq, Repr

/-- Modelled from the spec: admission decision for one `Execute` call —
after the lazy transitions, a call is rejected with `GateOpenError` in
OPEN, and in HALF_OPEN when the probe budget `maxHalfOpenRequests` is
exhausted; otherwise it is admitted, the in-flight request is counted,
and the generation at admission is captured. -/
def beforeRequest (cfg : Config) (s : CBState) (now : Nat) :
    CBState × Except GateOpenError Nat :=
  let s' := currentState cfg s now
  match s'.state with
  | .open => (s', .error ⟨cfg.name, .open⟩)
  | .halfOpen =>
    if cfg.maxRequests ≤ s'.counts.requests then
      (s', .error ⟨cfg.name, .halfOpen⟩)
    else
      ({ s' with counts := s'.counts.onRequest }, .ok s'.generation)
  | .closed => ({ s' with counts := s'.counts.onRequest }, .ok s'.generation)

/-- Modelled from the spec: recording a success outcome — counts updated;
in HALF_OPEN, when the successes of this generation reach
`maxHalfOpenRequests` the gate transitions to CLOSED, otherwise it
remains HALF_OPEN. -/
def onSuccess (cfg : Config) (s : CBState) (now : Nat) : CBState :=
  match s.state with
  | .closed => { s with counts := s.counts.onSuccess }
  | .halfOpen =>
    let s' := { s with counts := s.counts.onSuccess }
    if cfg.maxRequests ≤ s'.counts.totalSuccesses then
      setState cfg s' .closed now
    else
      s'
  | .open => s

/-- Modelled from the spec: recording a failure outcome — counts updated;
in CLOSED the trip policy is evaluated and, when true, the gate
transitions to OPEN; in HALF_OPEN a single failure transitions
immediately back to OPEN. -/
def onFailure (cfg : Config) (s : CBState) (now : Nat) : CBState :=
  match s.state with
  | .closed =>
    let s' := { s with counts := s.counts.onFailure }
    if cfg.readyToTrip s'.counts then setState cfg s' .open now else s'
  | .halfOpen => setState cfg { s with counts := s.counts.onFailure } .open now
  | .open => s

/-- Modelled from the spec: recording the outcome of a completed call —
the outcome is applied only under the generation captured at admission;
when the gate's generation at completion differs (a transition happened
in between), the result is discarded and the current generation's counts
are untouched. -/
def afterRequest (cfg : Config) (s : CBState) (beforeGen : Nat)
    (success : Bool) (now : Nat) : CBState :=
  let s' := currentState cfg s now
  if s'.generation ≠ beforeGen then s'
  else if success then onSuccess cfg s' now else onFailure cfg s' now

/-- Modelled from the spec: `Execute` — atomically decide admission; if
rejected, return `GateOpenError` (as `Sum.inl`) without invoking the
operation, leaving the operation's state `b` untouched; if admitted,
invoke the operation exactly once, record its outcome (any error is a
failure, any normal return a success) under the captured generation, and
return the operation's own result unmodified (its error as `Sum.inr`). -/
def execute (cfg : Config) (s : CBState) (now : Nat)
    (op : ρ → Except ε α × ρ) (b : ρ) :
    Except (GateOpenError ⊕ ε) α × CBState × ρ :=
  match beforeRequest cfg s now with
  | (s', .error g) => (.error (.inl g), s', b)
  | (s₁, .ok gen) =>
    match op b with
    | (.ok a, b') => (.ok a, afterRequest cfg s₁ gen true now, b')
    | (.error e, b') => (.error (.inr e), afterRequest cfg s₁ gen false now, b')

/-- Initial gate state: CLOSED with fresh counts (the state machine's
initial state; generation numbering starts by entering the first CLOSED
generation at creation time). -/
def initialState (cfg : Config) (now : Nat) : CBState :=
  newGeneration cfg .closed 0 now

/-- An HTTP request, keeping the fields the claims mention: method, URL,
headers and a context (modelled by an opaque tag). -/
structure Request where
  method : String
  url : String
  header : List (String × String)
  ctx : Nat
deriving DecidableEq, Repr

/-- An HTTP response, keeping the fields the tests observe. -/
structure Response where
  statusCode : Nat
  header : List (String × String)
deriving DecidableEq, Repr

/-- `CircuitBreakerTransport.RoundTrip` from the source:
`t.cb.Execute(func() (*http.Response, error) { return t.base.RoundTrip(req) })`
— the caller's request is handed to the base round tripper as-is.  The
base round tripper is a function on its own state `ρ`. -/
def roundTrip (cfg : Config) (s : CBState) (now : Nat)
    (base : ρ → Request → Except ε Response × ρ) (b : ρ) (req : Request) :
    Except (GateOpenError ⊕ ε) Response × CBState × ρ :=
  execute cfg s now (fun b => base b req) b

/-- `MockRoundTripper` from the repository's test file: records every
request it receives and counts its invocations; returns the configured
error, else the configured response, else a default 200 response. -/
structure MockRoundTripper where
  capturedRequests : List Request
  responseToReturn : Option Response
  errorToReturn : Option String
  callCount : Nat
deriving DecidableEq, Repr

/-- `MockRoundTripper.RoundTrip` from the repository's test file. -/
def MockRoundTripper.roundTrip (m : MockRoundTripper) (req : Request) :
    Except String Response × MockRoundTripper :=
  let m' := { m with
    capturedRequests := m.capturedRequests ++ [req]
    callCount := m.callCount + 1 }
  match m.errorToReturn with
  | some e => (.error e, m')
  | none =>
    match m.responseToReturn with
    | some r => (.ok r, m')
    | none => (.ok { statusCode := 200, header := [] }, m')

/-- C1: the default trip policy returns true exactly when `Requests ≥ 5`
and the failure ratio `TotalFailures/Requests` is at least `0.6` (stated
over ℚ; for `Requests ≥ 5` the float comparison is exact, see
`float64DivGE06`); in particular it is false whenever `Requests < 5`,
including `Requests = 0` where the float division yields NaN. -/
theorem defaultReadyToTrip_iff (c : Counts) :
    defaultReadyToTrip c = true ↔
      (5 ≤ c.requests ∧ (3 / 5 : ℚ) ≤ (c.totalFailures : ℚ) / (c.requests : ℚ)) := by
  unfold defaultReadyToTrip float64DivGE06
  constructor
  · intro h
    simp only [Bool.and_eq_true, decide_eq_true_eq] at h
    obtain ⟨h5, hdiv⟩ := h
    have hr0 : c.requests ≠ 0 := by omega
    simp only [hr0, if_false, decide_eq_true_eq] at hdiv
    refine ⟨h5, ?_⟩
    have hrpos : (0 : ℚ) < (c.requests : ℚ) := by
      exact_mod_cast Nat.pos_of_ne_zero hr0
    rw [div_le_div_iff₀ (by norm_num) hrpos]
    have h' : ((3 * c.requests : Nat) : ℚ) ≤ ((5 * c.totalFailures : Nat) : ℚ) := by
      exact_mod_cast hdiv
    push_cast at h'
    linarith
  · intro ⟨h5, hdiv⟩
    have hr0 : c.requests ≠ 0 := by omega
    have hrpos : (0 : ℚ) < (c.requests : ℚ) := by
      exact_mod_cast Nat.pos_of_ne_zero hr0
    rw [div_le_div_iff₀ (by norm_num) hrpos] at hdiv
    have h' : 3 * c.requests ≤ c.totalFailures * 5 := by exact_mod_cast hdiv
    simp only [Bool.and_eq_true, decide_eq_true_eq, hr0, if_false]
    exact ⟨h5, by omega⟩

/-- C9: `DefaultCircuitBreakerTransportOptions` returns name "default",
`MaxRequests = 5`, `Interval = 60s`, `Timeout = 60s` and a non-nil trip
policy, and `NewCircuitBreakerTransport` substitutes
`http.DefaultTransport` for a nil round tripper and these defaults for
nil options. -/
theorem defaultOptions_and_nil_substitution :
    DefaultCircuitBreakerTransportOptions.settings.name = "default" ∧
    DefaultCircuitBreakerTransportOptions.settings.maxRequests = 5 ∧
    DefaultCircuitBreakerTransportOptions.settings.interval = 60 * timeSecond ∧
    DefaultCircuitBreakerTransportOptions.settings.timeout = 60 * timeSecond ∧
    DefaultCircuitBreakerTransportOptions.settings.readyToTrip =
      some defaultReadyToTrip ∧
    (∀ opts, (NewCircuitBreakerTransport none opts).base = .defaultTransport) ∧
    (∀ rt, (NewCircuitBreakerTransport rt none).cbSettings =
      DefaultCircuitBreakerTransportOptions.settings) :=
  ⟨rfl, rfl, rfl, rfl, rfl, fun _ => rfl, fun _ => rfl⟩

/-- Helper: an OPEN gate whose timeout has not elapsed is untouched by the
lazy transitions. -/
lemma currentState_open_active (cfg : Config) (s : CBState) (now e : Nat)
    (hs : s.state = .open) (he : s.expiry = some e) (hlt : now < e) :
    currentState cfg s now = s := by
  unfold currentState
  rw [hs, he]
  simp [Nat.not_le.mpr hlt]

/-- Helper: an OPEN gate whose timeout has not elapsed rejects the call
with the gate-open error. -/
lemma beforeRequest_open_active (cfg : Config) (s : CBState) (now e : Nat)
    (hs : s.state = .open) (he : s.expiry = some e) (hlt : now < e) :
    beforeRequest cfg s now = (s, .error ⟨cfg.name, .open⟩) := by
  unfold beforeRequest
  rw [currentState_open_active cfg s now e hs he hlt]
  simp [hs]

/-- Helper: a rejected call returns the gate error, the lazily-updated
state, and the operation's state unchanged. -/
lemma execute_of_rejected {ρ ε α : Type} (cfg : Config) (s s' : CBState)
    (now : Nat) (g : GateOpenError) (op : ρ → Except ε α × ρ) (b : ρ)
    (h : beforeRequest cfg s now = (s', .error g)) :
    execute cfg s now op b = (.error (.inl g), s', b) := by
  unfold execute
  rw [h]

/-- Helper: an admitted call reduces `execute` to invoking the operation
and recording its outcome. -/
lemma execute_of_admitted {ρ ε α : Type} (cfg : Config) (s s₁ : CBState)
    (now gen : Nat) (op : ρ → Except ε α × ρ) (b : ρ)
    (h : beforeRequest cfg s now = (s₁, .ok gen)) :
    execute cfg s now op b =
      match op b with
      | (.ok a, b') => (.ok a, afterRequest cfg s₁ gen true now, b')
      | (.error e, b') => (.error (.inr e), afterRequest cfg s₁ gen false now, b') := by
  unfold execute
  rw [h]
  rfl

/-- C2: while the gate is OPEN and the open timeout has not elapsed,
`Execute`/`RoundTrip` returns the short-circuit gate-open error, the gate
state is unchanged, and the wrapped operation's state — hence its
invocation count — is untouched. -/
theorem open_gate_short_circuits {ρ ρ₂ ε ε₂ α : Type} (cfg : Config) (s : CBState)
    (now e : Nat) (op : ρ → Except ε α × ρ) (b : ρ)
    (base : ρ₂ → Request → Except ε₂ Response × ρ₂) (b₂ : ρ₂) (req : Request)
    (hs : s.state = .open) (he : s.expiry = some e) (hlt : now < e) :
    execute cfg s now op b = (.error (.inl ⟨cfg.name, .open⟩), s, b) ∧
    roundTrip cfg s now base b₂ req = (.error (.inl ⟨cfg.name, .open⟩), s, b₂) :=
  ⟨execute_of_rejected cfg s s now _ op b
      (beforeRequest_open_active cfg s now e hs he hlt),
   execute_of_rejected cfg s s now _ (fun b => base b req) b₂
      (beforeRequest_open_active cfg s now e hs he hlt)⟩

/-- Witness for C2 at a concrete OPEN gate that has not timed out. -/
theorem open_gate_short_circuits_witness :
    execute ⟨"gate", 1, 0, 100, fun _ => false⟩ ⟨.open, 3, Counts.zero, some 100⟩ 50
        (fun n : Nat => ((Except.ok (7 : Nat) : Except String Nat), n + 1)) 0 =
      (.error (.inl ⟨"gate", .open⟩), ⟨.open, 3, Counts.zero, some 100⟩, 0) ∧
    roundTrip ⟨"gate", 1, 0, 100, fun _ => false⟩ ⟨.open, 3, Counts.zero, some 100⟩ 50
        MockRoundTripper.roundTrip ⟨[], none, none, 0⟩
        ⟨"GET", "https://api.localhost/test", [], 0⟩ =
      (.error (.inl ⟨"gate", .open⟩), ⟨.open, 3, Counts.zero, some 100⟩,
        ⟨[], none, none, 0⟩) :=
  open_gate_short_circuits _ _ _ 100 _ _ _ _ _ rfl rfl (by decide)

/-- C3: for an admitted call, `Execute` returns exactly the operation's
own result — the success value unchanged, or the operation's own error
object (injected unmodified) — and applies the operation's state effect. -/
theorem execute_passthrough {ρ ε α : Type} (cfg : Config) (s s₁ : CBState)
    (now gen : Nat) (op : ρ → Except ε α × ρ) (b : ρ)
    (hadm : beforeRequest cfg s now = (s₁, .ok gen)) :
    (∀ a : α, (op b).1 = .ok a → (execute cfg s now op b).1 = .ok a) ∧
    (∀ err : ε, (op b).1 = .error err →
      (execute cfg s now op b).1 = .error (.inr err)) ∧
    (execute cfg s now op b).2.2 = (op b).2 := by
  rcases hob : op b with ⟨r, b'⟩
  rw [execute_of_admitted cfg s s₁ now gen op b hadm, hob]
  cases r <;> simp

/-- Witness for C3: a closed gate admits the call and returns the
operation's success value unchanged. -/
theorem execute_passthrough_witness :
    (execute ⟨"gate", 1, 0, 100, fun _ => false⟩ ⟨.closed, 1, Counts.zero, none⟩ 0
        (fun n : Nat => ((Except.ok (42 : Nat) : Except String Nat), n + 1)) 0).1 =
      .ok 42 :=
  (execute_passthrough ⟨"gate", 1, 0, 100, fun _ => false⟩ ⟨.closed, 1, Counts.zero, none⟩
    ⟨.closed, 1, ⟨1, 0, 0, 0, 0⟩, none⟩ 0 1
    (fun n : Nat => ((Except.ok (42 : Nat) : Except String Nat), n + 1)) 0 rfl).1 42 rfl

/-- C4: once an OPEN gate's timeout has elapsed, the next call observes
the lazy OPEN→HALF_OPEN transition, is admitted as a probe (the
operation's state effect is applied), and is not rejected; no background
timer is involved — the transition is a consequence of evaluating
`currentState` inside this very call. -/
theorem open_timeout_admits_probe {ρ ε α : Type} (cfg : Config) (s : CBState)
    (now e : Nat) (op : ρ → Except ε α × ρ) (b : ρ)
    (hs : s.state = .open) (he : s.expiry = some e) (hexp : e ≤ now)
    (hmax : 0 < cfg.maxRequests) :
    currentState cfg s now = newGeneration cfg .halfOpen s.generation now ∧
    beforeRequest cfg s now =
      ({ newGeneration cfg .halfOpen s.generation now with
          counts := Counts.zero.onRequest }, .ok (s.generation + 1)) ∧
    (execute cfg s now op b).2.2 = (op b).2 := by
  have hcs : currentState cfg s now = newGeneration cfg .halfOpen s.generation now := by
    unfold currentState
    rw [hs, he]
    simp [hexp, setState, hs]
  have hbudget : ¬ (cfg.maxRequests ≤ 0) := by omega
  have hbr : beforeRequest cfg s now =
      ({ newGeneration cfg .halfOpen s.generation now with
          counts := Counts.zero.onRequest }, .ok (s.generation + 1)) := by
    unfold beforeRequest
    rw [hcs]
    simp [newGeneration, Counts.zero, hbudget]
  refine ⟨hcs, hbr, ?_⟩
  rcases hob : op b with ⟨r, b'⟩
  rw [execute_of_admitted cfg s _ now (s.generation + 1) op b hbr, hob]
  cases r <;> simp

/-- Witness for C4 at a concrete OPEN gate whose timeout has elapsed. -/
theorem open_timeout_admits_probe_witness :
    (execute ⟨"gate", 1, 0, 100, fun _ => false⟩ ⟨.open, 3, Counts.zero, some 100⟩ 150
        (fun n : Nat => ((Except.ok (7 : Nat) : Except String Nat), n + 1)) 0).2.2 =
      0 + 1 :=
  (open_timeout_admits_probe ⟨"gate", 1, 0, 100, fun _ => false⟩
    ⟨.open, 3, Counts.zero, some 100⟩ 150 100
    (fun n : Nat => ((Except.ok (7 : Nat) : Except String Nat), n + 1)) 0
    rfl rfl (by decide) (by decide)).2.2

/-- Helper: the lazy transitions leave a HALF_OPEN gate untouched. -/
lemma currentState_halfOpen (cfg : Config) (s : CBState) (now : Nat)
    (hs : s.state = .halfOpen) : currentState cfg s now = s := by
  unfold currentState
  simp [hs]

/-- Helper: a HALF_OPEN gate with probe budget remaining admits the call,
counting the in-flight request under the current generation. -/
lemma beforeRequest_halfOpen_admit (cfg : Config) (s : CBState) (now : Nat)
    (hs : s.state = .halfOpen) (hbud : s.counts.requests < cfg.maxRequests) :
    beforeRequest cfg s now =
      ({ s with counts := s.counts.onRequest }, .ok s.generation) := by
  unfold beforeRequest
  rw [currentState_halfOpen cfg s now hs]
  simp [hs, Nat.not_le.mpr hbud]

/-- C5: a HALF_OPEN gate whose single admitted probe fails transitions
immediately back to OPEN (fresh generation, expiry `now + openTimeout`),
and a subsequent call before that expiry is rejected with the gate-open
error without invoking its operation. -/
theorem halfOpen_failure_reopens {ρ ρ₂ ε ε₂ α α₂ : Type} (cfg : Config) (s : CBState)
    (now now₂ : Nat) (op : ρ → Except ε α × ρ) (b : ρ) (err : ε)
    (op₂ : ρ₂ → Except ε₂ α₂ × ρ₂) (b₂ : ρ₂)
    (hs : s.state = .halfOpen) (hbud : s.counts.requests < cfg.maxRequests)
    (hop : (op b).1 = .error err) (hnow₂ : now₂ < now + cfg.timeout) :
    (execute cfg s now op b).2.1 =
      ⟨.open, s.generation + 1, Counts.zero, some (now + cfg.timeout)⟩ ∧
    execute cfg ((execute cfg s now op b).2.1) now₂ op₂ b₂ =
      (.error (.inl ⟨cfg.name, .open⟩), (execute cfg s now op b).2.1, b₂) := by
  have hbr := beforeRequest_halfOpen_admit cfg s now hs hbud
  have hs₁ : ({ s with counts := s.counts.onRequest } : CBState).state = .halfOpen := hs
  have haft : afterRequest cfg { s with counts := s.counts.onRequest }
      s.generation false now =
      ⟨.open, s.generation + 1, Counts.zero, some (now + cfg.timeout)⟩ := by
    unfold afterRequest onFailure setState newGeneration
    rw [currentState_halfOpen cfg _ now hs₁]
    simp [hs, hs₁]
  have h21 : (execute cfg s now op b).2.1 =
      ⟨.open, s.generation + 1, Counts.zero, some (now + cfg.timeout)⟩ := by
    rcases hob : op b with ⟨r, b'⟩
    rw [hob] at hop
    cases r with
    | ok a => exact absurd hop (by simp)
    | error e =>
      rw [execute_of_admitted cfg s _ now s.generation op b hbr, hob]
      exact haft
  refine ⟨h21, ?_⟩
  rw [h21]
  exact execute_of_rejected cfg _ _ now₂ _ op₂ b₂
    (beforeRequest_open_active cfg _ now₂ (now + cfg.timeout) rfl rfl hnow₂)

/-- Witness for C5 at a concrete HALF_OPEN gate with a failing probe. -/
theorem halfOpen_failure_reopens_witness :
    (execute ⟨"gate", 1, 0, 100, fun _ => false⟩ ⟨.halfOpen, 4, Counts.zero, none⟩ 10
        (fun n : Nat => ((Except.error "boom" : Except String Nat), n + 1)) 0).2.1 =
      ⟨.open, 4 + 1, Counts.zero, some (10 + 100)⟩ ∧
    execute ⟨"gate", 1, 0, 100, fun _ => false⟩
        ((execute ⟨"gate", 1, 0, 100, fun _ => false⟩ ⟨.halfOpen, 4, Counts.zero, none⟩ 10
          (fun n : Nat => ((Except.error "boom" : Except String Nat), n + 1)) 0).2.1) 50
        (fun n : Nat => ((Except.ok (7 : Nat) : Except String Nat), n + 1)) 0 =
      (.error (.inl ⟨"gate", .open⟩),
        (execute ⟨"gate", 1, 0, 100, fun _ => false⟩ ⟨.halfOpen, 4, Counts.zero, none⟩ 10
          (fun n : Nat => ((Except.error "boom" : Except String Nat), n + 1)) 0).2.1, 0) :=
  halfOpen_failure_reopens ⟨"gate", 1, 0, 100, fun _ => false⟩
    ⟨.halfOpen, 4, Counts.zero, none⟩ 10 50
    (fun n : Nat => ((Except.error "boom" : Except String Nat), n + 1)) 0 "boom"
    (fun n : Nat => ((Except.ok (7 : Nat) : Except String Nat), n + 1)) 0
    rfl (by decide) rfl (by decide)

/-- C6: a HALF_OPEN gate's successful probe transitions to CLOSED exactly
when the successes recorded in this generation reach
`maxHalfOpenRequests`; with fewer successes the gate stays HALF_OPEN; and
a CLOSED gate admits every call (the trip policy is only consulted after
a failure outcome). -/
theorem halfOpen_success_closes {ρ ε α : Type} (cfg : Config) (s : CBState)
    (now : Nat) (op : ρ → Except ε α × ρ) (b : ρ) (a : α)
    (hs : s.state = .halfOpen) (hbud : s.counts.requests < cfg.maxRequests)
    (hop : (op b).1 = .ok a) :
    (((execute cfg s now op b).2.1).state = .closed ↔
      cfg.maxRequests ≤ s.counts.totalSuccesses + 1) ∧
    (s.counts.totalSuccesses + 1 < cfg.maxRequests →
      ((execute cfg s now op b).2.1).state = .halfOpen) ∧
    (∀ (s₂ : CBState) (now₂ : Nat), s₂.state = .closed →
      ∃ (s₃ : CBState) (g : Nat), beforeRequest cfg s₂ now₂ = (s₃, Except.ok g)) := by
  have hbr := beforeRequest_halfOpen_admit cfg s now hs hbud
  have hs₁ : ({ s with counts := s.counts.onRequest } : CBState).state = .halfOpen := hs
  have haft : (afterRequest cfg { s with counts := s.counts.onRequest }
      s.generation true now).state =
      (if cfg.maxRequests ≤ s.counts.totalSuccesses + 1 then CBStateKind.closed
        else CBStateKind.halfOpen) := by
    unfold afterRequest onSuccess
    rw [currentState_halfOpen cfg _ now hs₁]
    simp only [hs₁]
    by_cases hc : cfg.maxRequests ≤ s.counts.totalSuccesses + 1
    · simp [Counts.onSuccess, Counts.onRequest, hc, setState, newGeneration, hs]
    · simp [Counts.onSuccess, Counts.onRequest, hc, hs]
  have hstate : ((execute cfg s now op b).2.1).state =
      (if cfg.maxRequests ≤ s.counts.totalSuccesses + 1 then CBStateKind.closed
        else CBStateKind.halfOpen) := by
    rcases hob : op b with ⟨r, b'⟩
    rw [hob] at hop
    cases r with
    | error e => exact absurd hop (by simp)
    | ok a' =>
      rw [execute_of_admitted cfg s _ now s.generation op b hbr, hob]
      exact haft
  refine ⟨?_, ?_, ?_⟩
  · rw [hstate]
    by_cases hc : cfg.maxRequests ≤ s.counts.totalSuccesses + 1 <;> simp [hc]
  · intro hlt
    rw [hstate, if_neg (by omega)]
  · intro s₂ now₂ h₂
    unfold beforeRequest currentState
    rcases hexp : s₂.expiry with _ | e
    · simp [h₂, hexp]
    · by_cases hle : e ≤ now₂ <;> simp [h₂, hexp, hle, newGeneration]

/-- Witness for C6: with `maxHalfOpenRequests = 1`, the single successful
probe closes the gate. -/
theorem halfOpen_success_closes_witness :
    ((execute ⟨"gate", 1, 0, 100, fun _ => false⟩ ⟨.halfOpen, 4, Counts.zero, none⟩ 10
        (fun n : Nat => ((Except.ok (7 : Nat) : Except String Nat), n + 1)) 0).2.1).state =
      CBStateKind.closed :=
  (halfOpen_success_closes ⟨"gate", 1, 0, 100, fun _ => false⟩
    ⟨.halfOpen, 4, Counts.zero, none⟩ 10
    (fun n : Nat => ((Except.ok (7 : Nat) : Except String Nat), n + 1)) 0 7
    rfl (by decide) rfl).1.mpr (by decide)

/-- C7: every transition into a new state resets the counts to zero and
increments the generation; and when the generation captured at admission
differs from the gate's generation at completion, recording the outcome
is a no-op on the current generation's state and counts. -/
theorem generation_discipline :
    (∀ (cfg : Config) (s : CBState) (k : CBStateKind) (now : Nat), s.state ≠ k →
      (setState cfg s k now).counts = Counts.zero ∧
      (setState cfg s k now).generation = s.generation + 1 ∧
      (setState cfg s k now).state = k) ∧
    (∀ (cfg : Config) (s : CBState) (gen : Nat) (success : Bool) (now : Nat),
      (currentState cfg s now).generation ≠ gen →
      afterRequest cfg s gen success now = currentState cfg s now) := by
  constructor
  · intro cfg s k now hne
    unfold setState newGeneration
    simp [hne]
  · intro cfg s gen success now hne
    unfold afterRequest
    simp [hne]

/-- Witness for C7: a concrete CLOSED→OPEN transition wipes the counts,
and a stale-generation outcome recording is discarded. -/
theorem generation_discipline_witness :
    (setState ⟨"gate", 1, 0, 100, fun _ => false⟩
        ⟨.closed, 2, ⟨3, 1, 2, 0, 2⟩, none⟩ .open 5).counts = Counts.zero ∧
    afterRequest ⟨"gate", 1, 0, 100, fun _ => false⟩
        ⟨.closed, 2, ⟨3, 1, 2, 0, 2⟩, none⟩ 7 true 5 =
      currentState ⟨"gate", 1, 0, 100, fun _ => false⟩
        ⟨.closed, 2, ⟨3, 1, 2, 0, 2⟩, none⟩ 5 :=
  ⟨(generation_discipline.1 ⟨"gate", 1, 0, 100, fun _ => false⟩
      ⟨.closed, 2, ⟨3, 1, 2, 0, 2⟩, none⟩ .open 5 (by decide)).1,
   generation_discipline.2 ⟨"gate", 1, 0, 100, fun _ => false⟩
      ⟨.closed, 2, ⟨3, 1, 2, 0, 2⟩, none⟩ 7 true 5 (by decide)⟩

/-- Helper: a rejection by `beforeRequest` happens exactly in OPEN or in
HALF_OPEN with the budget exhausted, and the error carries the gate name
and that state. -/
lemma beforeRequest_error_spec (cfg : Config) (s : CBState) (now : Nat)
    (s' : CBState) (g : GateOpenError)
    (h : beforeRequest cfg s now = (s', .error g)) :
    s' = currentState cfg s now ∧ g = ⟨cfg.name, s'.state⟩ ∧
      (s'.state = .open ∨ s'.state = .halfOpen) := by
  unfold beforeRequest at h
  rcases hk : (currentState cfg s now).state with _ | _ | _ <;> simp only [hk] at h
  · exact absurd (congrArg Prod.snd h) (by simp)
  · injection h with h1 h2
    subst h1
    injection h2 with h3
    exact ⟨rfl, by rw [← h3, hk], Or.inl hk⟩
  · by_cases hb : cfg.maxRequests ≤ (currentState cfg s now).counts.requests
    · rw [if_pos hb] at h
      injection h with h1 h2
      subst h1
      injection h2 with h3
      exact ⟨rfl, by rw [← h3, hk], Or.inr hk⟩
    · rw [if_neg hb] at h
      exact absurd (congrArg Prod.snd h) (by simp)

/-- C8: the short-circuit error is type-distinct from any operation
error (the `Sum` injections never coincide, and an admitted call never
produces the gate-error injection), and whenever `Execute` short-circuits
the returned `GateOpenError` carries the gate's name and its current
state, which is OPEN or HALF_OPEN. -/
theorem gateOpenError_distinguishable :
    (∀ (ε : Type) (g : GateOpenError) (e : ε),
      (Sum.inl g : GateOpenError ⊕ ε) ≠ Sum.inr e) ∧
    (∀ (ρ ε α : Type) (cfg : Config) (s : CBState) (now : Nat)
      (op : ρ → Except ε α × ρ) (b : ρ) (g : GateOpenError),
      (execute cfg s now op b).1 = .error (.inl g) →
        g.gateName = cfg.name ∧ g.state = (currentState cfg s now).state ∧
        ((currentState cfg s now).state = .open ∨
          (currentState cfg s now).state = .halfOpen)) := by
  constructor
  · intro ε g e h
    exact Sum.noConfusion h
  · intro ρ ε α cfg s now op b g h
    rcases hbr : beforeRequest cfg s now with ⟨s', r⟩
    cases r with
    | error g' =>
      rw [execute_of_rejected cfg s s' now g' op b hbr] at h
      obtain ⟨h1, h2, h3⟩ := beforeRequest_error_spec cfg s now s' g' hbr
      have hg : g' = g := by
        simp at h
        exact h
      subst hg
      subst h1
      exact ⟨by rw [h2], by rw [h2], h3⟩
    | ok gen =>
      rw [execute_of_admitted cfg s s' now gen op b hbr] at h
      rcases hob : op b with ⟨r2, b'⟩
      rw [hob] at h
      cases r2 <;> simp at h

/-- Witness for C8: a concrete short-circuited call yields the gate
error with the gate's name and OPEN state, and the two error kinds are
distinct. -/
theorem gateOpenError_distinguishable_witness :
    ((Sum.inl (⟨"gate", .open⟩ : GateOpenError) : GateOpenError ⊕ String) ≠
      Sum.inr "network error") ∧
    ((⟨"gate", .open⟩ : GateOpenError).gateName = "gate" ∧
      (⟨"gate", .open⟩ : GateOpenError).state =
        (currentState ⟨"gate", 1, 0, 100, fun _ => false⟩
          ⟨.open, 3, Counts.zero, some 100⟩ 50).state ∧
      ((currentState ⟨"gate", 1, 0, 100, fun _ => false⟩
          ⟨.open, 3, Counts.zero, some 100⟩ 50).state = .open ∨
        (currentState ⟨"gate", 1, 0, 100, fun _ => false⟩
          ⟨.open, 3, Counts.zero, some 100⟩ 50).state = .halfOpen)) :=
  ⟨gateOpenError_distinguishable.1 String ⟨"gate", .open⟩ "network error",
   gateOpenError_distinguishable.2 Nat String Nat
    ⟨"gate", 1, 0, 100, fun _ => false⟩ ⟨.open, 3, Counts.zero, some 100⟩ 50
    (fun n : Nat => ((Except.ok (7 : Nat) : Except String Nat), n + 1)) 0
    ⟨"gate", .open⟩ rfl⟩

/-- C10: an admitted `RoundTrip` hands the caller's request to the base
round tripper unchanged — the mock transport from the repository's tests
captures exactly the original request (hence method, URL, headers and
context intact) and its call count increments by one. -/
theorem roundTrip_passes_request_unchanged (cfg : Config) (s s₁ : CBState)
    (now gen : Nat) (m : MockRoundTripper) (req : Request)
    (hadm : beforeRequest cfg s now = (s₁, .ok gen)) :
    ((roundTrip cfg s now MockRoundTripper.roundTrip m req).2.2).capturedRequests =
      m.capturedRequests ++ [req] ∧
    ((roundTrip cfg s now MockRoundTripper.roundTrip m req).2.2).callCount =
      m.callCount + 1 := by
  unfold roundTrip
  rw [execute_of_admitted cfg s s₁ now gen (fun b => MockRoundTripper.roundTrip b req)
    m hadm]
  unfold MockRoundTripper.roundTrip
  rcases herr : m.errorToReturn with _ | e
  · rcases hresp : m.responseToReturn with _ | r <;> simp [herr, hresp]
  · simp [herr]

/-- Witness for C10: a closed gate forwards the concrete request to the
mock transport, which captures it verbatim. -/
theorem roundTrip_passes_request_unchanged_witness :
    ((roundTrip ⟨"gate", 1, 0, 100, fun _ => false⟩ ⟨.closed, 1, Counts.zero, none⟩ 0
        MockRoundTripper.roundTrip ⟨[], none, none, 0⟩
        ⟨"GET", "https://api.localhost/data", [("Accept", "application/json")], 42⟩).2.2).capturedRequests =
      [] ++ [⟨"GET", "https://api.localhost/data", [("Accept", "application/json")], 42⟩] :=
  (roundTrip_passes_request_unchanged ⟨"gate", 1, 0, 100, fun _ => false⟩
    ⟨.closed, 1, Counts.zero, none⟩ ⟨.closed, 1, ⟨1, 0, 0, 0, 0⟩, none⟩ 0 1
    ⟨[], none, none, 0⟩
    ⟨"GET", "https://api.localhost/data", [("Accept", "application/json")], 42⟩ rfl).1
